import Mathlib

/-
  Verification of the migxattrs migration engine (src/main.go).

  The program relocates files between two Ceph placement pools: it reads a
  precomputed scan file of (pool, relative-path) records, counts records per
  pool (analyzePoolScan), and for every record in the source pool whose live
  placement attribute still equals the source pool it rewrites the file into a
  temporary sibling `<path>.mig` tagged with the destination pool and renames
  it over the original (migrateFile).

  The embedding below models the filesystem as a partial map from paths to
  file entries (content bytes, placement attribute, mode, uid/gid, times,
  directory flag).  Every I/O primitive the Go code calls can be made to fail
  by a fault-injection record `Faults`; `migrateFile` returns the result, the
  final filesystem, and the trace of attempted filesystem operations, in
  program order.  The run coordinator (`main`'s second loop) is embedded as
  `processLine` folded by `runMain`.
-/

namespace Migxattrs

abbrev Path := String

/-- One filesystem object: a regular file or a directory.  `content` is the
byte sequence (bytes as `Nat`), `xattr` the value of the placement attribute
`ceph.file.layout.pool` (`none` when the attribute is absent). -/
structure FileEnt where
  content : List Nat
  xattr : Option String
  mode : Nat
  uid : Nat
  gid : Nat
  atime : Nat
  mtime : Nat
  isDir : Bool
deriving DecidableEq, Repr

/-- The filesystem: a partial map from absolute paths to entries. -/
abbrev FS := Path → Option FileEnt

def setF (fs : FS) (p : Path) (e : FileEnt) : FS :=
  fun q => if q = p then some e else fs q

def delF (fs : FS) (p : Path) : FS :=
  fun q => if q = p then none else fs q

def updF (fs : FS) (p : Path) (g : FileEnt → FileEnt) : FS :=
  fun q => if q = p then (fs p).map g else fs q

/-- The metadata snapshot `os.FileInfo` taken by `os.Stat` in the main loop
and passed to `migrateFile`. -/
structure FileInfo where
  size : Nat
  mode : Nat
  uid : Nat
  gid : Nat
  mtime : Nat
  isDir : Bool
deriving DecidableEq, Repr

/-- The snapshot a successful `os.Stat` derives from the live entry. -/
def infoOf (e : FileEnt) : FileInfo :=
  ⟨e.content.length, e.mode, e.uid, e.gid, e.mtime, e.isDir⟩

def XATTR_KEY : String := "ceph.file.layout.pool"
def SRC_POOL : String := "cephfs.ibu.data_ec42"
def DST_POOL : String := "cephfs.ibu.data_ec82"
def SCAN_FILE : String := "pool_scan.tab"

/-- `getXattr` (src/main.go): read the placement attribute; `none` models the
error return (path inaccessible or attribute absent). -/
def getXattr (fs : FS) (p : Path) : Option String :=
  match fs p with
  | some e => e.xattr
  | none => none

/-- Ambient process facts: the current clock and the identity that owns files
created by the process. -/
structure Env where
  now : Nat
  uid : Nat
  gid : Nat
deriving DecidableEq, Repr

/-- Fault injection for the nine I/O calls of `migrateFile` plus the
best-effort `os.Remove`.  `cutAt` is the number of bytes `io.Copy` managed to
write before a injected copy fault. -/
structure Faults where
  failCreate : Bool := false
  failSetxattr : Bool := false
  failOpenSrc : Bool := false
  failOpenDst : Bool := false
  failCopy : Bool := false
  failChmod : Bool := false
  failChown : Bool := false
  failChtimes : Bool := false
  failRename : Bool := false
  failRemove : Bool := false
  cutAt : Nat := 0
deriving DecidableEq, Repr

def noFaults : Faults := {}

/-- The error kinds of the seven protocol steps (step 3 contributes the two
opens and the copy). -/
inductive Err where
  | createErr
  | xattrSetErr
  | openSrcErr
  | openDstErr
  | copyErr
  | chmodErr
  | chownErr
  | chtimesErr
  | renameErr
deriving DecidableEq, Repr

/-- Filesystem operations attempted by `migrateFile`, recorded in program
order whether they succeed or fail. -/
inductive Ev where
  | create (p : Path)
  | setx (p : Path) (v : String)
  | openR (p : Path)
  | openW (p : Path)
  | writeData (p : Path) (n : Nat)
  | doChmod (p : Path) (m : Nat)
  | doChown (p : Path) (u g : Nat)
  | doChtimes (p : Path) (a m : Nat)
  | doRename (a b : Path)
  | doRemove (p : Path)
deriving DecidableEq, Repr

instance : DecidableEq (Except Err Unit) := fun a b =>
  match a, b with
  | .ok (), .ok () => isTrue rfl
  | .ok (), .error _ => isFalse (fun h => Except.noConfusion h)
  | .error _, .ok () => isFalse (fun h => Except.noConfusion h)
  | .error x, .error y =>
    if h : x = y then isTrue (by rw [h])
    else isFalse (fun hc => h (by injection hc))

structure MigRes where
  res : Except Err Unit
  fs : FS
  tr : List Ev

def contentAt (fs : FS) (p : Path) : List Nat :=
  match fs p with
  | some e => e.content
  | none => []

def isDirAt (fs : FS) (p : Path) : Bool :=
  match fs p with
  | some e => e.isDir
  | none => false

/-- Writing `w` at offset 0 of a file holding `old`, without truncation
(the temp file is opened `O_WRONLY` without `O_TRUNC`). -/
def overwrite (old w : List Nat) : List Nat :=
  w ++ old.drop w.length

/-- The best-effort `os.Remove(tmpPath)` on the failure paths. -/
def removeTmp (f : Faults) (fs : FS) (t : Path) : FS :=
  if f.failRemove then fs else delF fs t

/-- Entry produced by a fresh `O_CREATE` creation: empty content, no
attribute, the mode passed to `os.OpenFile`, owned by the process, both
times "now". -/
def freshEnt (env : Env) (info : FileInfo) : FileEnt :=
  ⟨[], none, info.mode, env.uid, env.gid, env.now, env.now, false⟩

/-- Step 1 state change: `O_CREATE` without `O_EXCL`/`O_TRUNC` creates a
fresh empty file only when nothing exists at `t`; otherwise the existing
entry is left untouched. -/
def createFS (env : Env) (info : FileInfo) (fs : FS) (t : Path) : FS :=
  match fs t with
  | some _ => fs
  | none => setF fs t (freshEnt env info)

/-- Step 2 state change: set the placement attribute on `t`. -/
def setxFS (fs : FS) (t : Path) : FS :=
  updF fs t (fun e => { e with xattr := some DST_POOL })

/-- Step 3 state change: write the first `k` bytes of the file at `p` over
the start of the file at `t`, without truncation. -/
def writeFS (fs : FS) (p t : Path) (k : Nat) : FS :=
  updF fs t (fun e => { e with content := overwrite e.content ((contentAt fs p).take k) })

def chmodFS (fs : FS) (t : Path) (m : Nat) : FS :=
  updF fs t (fun e => { e with mode := m })

def chownFS (fs : FS) (t : Path) (u g : Nat) : FS :=
  updF fs t (fun e => { e with uid := u, gid := g })

def chtimesFS (fs : FS) (t : Path) (a m : Nat) : FS :=
  updF fs t (fun e => { e with atime := a, mtime := m })

/-- Step 7 state change: atomically rename `t` onto `p`. -/
def renameFS (fs : FS) (t p : Path) : FS :=
  fun q => if q = p then fs t else if q = t then none else fs q

/-- The first step of `migrateFile` (src/main.go lines 232-290) that fails,
if any, given the injected faults and the starting filesystem.

Step 1 is `os.OpenFile(tmpPath, O_CREATE|O_WRONLY, info.Mode())`: without
`O_EXCL` it succeeds even on a pre-existing regular file at `tmpPath`
(reusing it untruncated; the mode argument applies only to a fresh
creation); it fails on an injected fault or when `tmpPath` is a directory.
Step 2 is `unix.Setxattr(tmpPath, XATTR_KEY, DST_POOL, 0)`.  Step 3's
`os.Open(path)` fails on a fault or a missing original, and its `io.Copy`
fails on a fault or when the original is a directory; those conditions read
the original path, which steps 1-2 never touch, so they are stated over the
starting filesystem.  Steps 4-7 (chmod, chown, chtimes, rename) fail only on
their injected faults. -/
def firstFail (f : Faults) (fs0 : FS) (path : Path) : Option Err :=
  if f.failCreate || isDirAt fs0 (path ++ ".mig") then some .createErr
  else if f.failSetxattr then some .xattrSetErr
  else if f.failOpenSrc || (fs0 path).isNone then some .openSrcErr
  else if f.failOpenDst then some .openDstErr
  else if f.failCopy || isDirAt fs0 path then some .copyErr
  else if f.failChmod then some .chmodErr
  else if f.failChown then some .chownErr
  else if f.failChtimes then some .chtimesErr
  else if f.failRename then some .renameErr
  else none

/-- The filesystem after steps 1 and 2 have succeeded. -/
def fs2of (env : Env) (info : FileInfo) (fs0 : FS) (path : Path) : FS :=
  setxFS (createFS env info fs0 (path ++ ".mig")) (path ++ ".mig")

/-- The filesystem after steps 1-6 have succeeded (full copy, chmod, chown,
chtimes applied to the temp file). -/
def fs6of (env : Env) (info : FileInfo) (fs0 : FS) (path : Path) : FS :=
  chtimesFS
    (chownFS
      (chmodFS
        (writeFS (fs2of env info fs0 path) path (path ++ ".mig") (contentAt fs0 path).length)
        (path ++ ".mig") info.mode)
      (path ++ ".mig") info.uid info.gid)
    (path ++ ".mig") env.now info.mtime

/-- Final filesystem of a `migrateFile` call, by first failing step.  Every
failure after step 1 runs the best-effort `os.Remove(tmpPath)`; a step-1
failure returns at once (src/main.go lines 235-239: no `os.Remove` in the
create-error branch). -/
def migFS (env : Env) (f : Faults) (fs0 : FS) (path : Path) (info : FileInfo) : FS :=
  match firstFail f fs0 path with
  | some .createErr => fs0
  | some .xattrSetErr => removeTmp f (createFS env info fs0 (path ++ ".mig")) (path ++ ".mig")
  | some .openSrcErr => removeTmp f (fs2of env info fs0 path) (path ++ ".mig")
  | some .openDstErr => removeTmp f (fs2of env info fs0 path) (path ++ ".mig")
  | some .copyErr =>
    removeTmp f
      (writeFS (fs2of env info fs0 path) path (path ++ ".mig")
        (min f.cutAt (contentAt fs0 path).length))
      (path ++ ".mig")
  | some .chmodErr =>
    removeTmp f
      (writeFS (fs2of env info fs0 path) path (path ++ ".mig") (contentAt fs0 path).length)
      (path ++ ".mig")
  | some .chownErr =>
    removeTmp f
      (chmodFS
        (writeFS (fs2of env info fs0 path) path (path ++ ".mig") (contentAt fs0 path).length)
        (path ++ ".mig") info.mode)
      (path ++ ".mig")
  | some .chtimesErr =>
    removeTmp f
      (chownFS
        (chmodFS
          (writeFS (fs2of env info fs0 path) path (path ++ ".mig") (contentAt fs0 path).length)
          (path ++ ".mig") info.mode)
        (path ++ ".mig") info.uid info.gid)
      (path ++ ".mig")
  | some .renameErr => removeTmp f (fs6of env info fs0 path) (path ++ ".mig")
  | none => renameFS (fs6of env info fs0 path) (path ++ ".mig") path

/-- Trace of attempted filesystem operations of a `migrateFile` call, in
program order, by first failing step. -/
def migTr (env : Env) (f : Faults) (fs0 : FS) (path : Path) (info : FileInfo) : List Ev :=
  match firstFail f fs0 path with
  | some .createErr => [.create (path ++ ".mig")]
  | some .xattrSetErr =>
    [.create (path ++ ".mig"), .setx (path ++ ".mig") DST_POOL, .doRemove (path ++ ".mig")]
  | some .openSrcErr =>
    [.create (path ++ ".mig"), .setx (path ++ ".mig") DST_POOL, .openR path,
     .doRemove (path ++ ".mig")]
  | some .openDstErr =>
    [.create (path ++ ".mig"), .setx (path ++ ".mig") DST_POOL, .openR path,
     .openW (path ++ ".mig"), .doRemove (path ++ ".mig")]
  | some .copyErr =>
    [.create (path ++ ".mig"), .setx (path ++ ".mig") DST_POOL, .openR path,
     .openW (path ++ ".mig"), .writeData (path ++ ".mig") (min f.cutAt (contentAt fs0 path).length),
     .doRemove (path ++ ".mig")]
  | some .chmodErr =>
    [.create (path ++ ".mig"), .setx (path ++ ".mig") DST_POOL, .openR path,
     .openW (path ++ ".mig"), .writeData (path ++ ".mig") (contentAt fs0 path).length,
     .doChmod (path ++ ".mig") info.mode, .doRemove (path ++ ".mig")]
  | some .chownErr =>
    [.create (path ++ ".mig"), .setx (path ++ ".mig") DST_POOL, .openR path,
     .openW (path ++ ".mig"), .writeData (path ++ ".mig") (contentAt fs0 path).length,
     .doChmod (path ++ ".mig") info.mode, .doChown (path ++ ".mig") info.uid info.gid,
     .doRemove (path ++ ".mig")]
  | some .chtimesErr =>
    [.create (path ++ ".mig"), .setx (path ++ ".mig") DST_POOL, .openR path,
     .openW (path ++ ".mig"), .writeData (path ++ ".mig") (contentAt fs0 path).length,
     .doChmod (path ++ ".mig") info.mode, .doChown (path ++ ".mig") info.uid info.gid,
     .doChtimes (path ++ ".mig") env.now info.mtime, .doRemove (path ++ ".mig")]
  | some .renameErr =>
    [.create (path ++ ".mig"), .setx (path ++ ".mig") DST_POOL, .openR path,
     .openW (path ++ ".mig"), .writeData (path ++ ".mig") (contentAt fs0 path).length,
     .doChmod (path ++ ".mig") info.mode, .doChown (path ++ ".mig") info.uid info.gid,
     .doChtimes (path ++ ".mig") env.now info.mtime, .doRename (path ++ ".mig") path,
     .doRemove (path ++ ".mig")]
  | none =>
    [.create (path ++ ".mig"), .setx (path ++ ".mig") DST_POOL, .openR path,
     .openW (path ++ ".mig"), .writeData (path ++ ".mig") (contentAt fs0 path).length,
     .doChmod (path ++ ".mig") info.mode, .doChown (path ++ ".mig") info.uid info.gid,
     .doChtimes (path ++ ".mig") env.now info.mtime, .doRename (path ++ ".mig") path]

/-- `migrateFile` (src/main.go lines 232-290), the Migration Executor:
create the temp sibling `<path>.mig`, set the destination attribute on it,
copy the original's bytes into it, re-apply mode, owner and modification
time from the snapshot, and rename it over the original.  Every failure
after step 1 attempts the best-effort `os.Remove(tmpPath)`; a step-1 failure
returns at once.  Returns the step error (if any), the final filesystem and
the operation trace. -/
def migrateFile (env : Env) (f : Faults) (fs0 : FS) (path : Path) (info : FileInfo) : MigRes :=
  { res := match firstFail f fs0 path with
           | none => .ok ()
           | some e => .error e,
    fs := migFS env f fs0 path info,
    tr := migTr env f fs0 path info }


def Ev.isSetOn (t : Path) : Ev → Bool
  | .setx q _ => q == t
  | _ => false

def Ev.isWriteOn (t : Path) : Ev → Bool
  | .writeData q _ => q == t
  | _ => false

/-- Every event strictly before the first attribute-set on `t` is not a data
write to `t`; after the first attribute-set anything may follow. -/
def setFirst (t : Path) : List Ev → Bool
  | [] => true
  | e :: rest => if Ev.isSetOn t e then true else (!Ev.isWriteOn t e) && setFirst t rest

/-- `strings.Fields`: split on runs of whitespace, dropping empty fields.
`acc` holds the characters of the current field, reversed. -/
def fieldsAux : List Char → List Char → List String
  | [], acc => if acc.isEmpty then [] else [String.mk acc.reverse]
  | c :: rest, acc =>
    if c.isWhitespace then
      if acc.isEmpty then fieldsAux rest []
      else String.mk acc.reverse :: fieldsAux rest []
    else fieldsAux rest (c :: acc)

def strFields (s : String) : List String := fieldsAux s.data []

/-- `filepath.Join(cephRoot, fields[1])` on an already-clean root and
relative path. -/
def joinPath (root rel : Path) : Path := root ++ "/" ++ rel

/-- One step of `analyzePoolScan`'s loop (src/main.go lines 205-215): a line
with at least two whitespace-separated fields bumps the count of its first
field; any other line is dropped. -/
def analyzeStep (m : String → Nat) (line : String) : String → Nat :=
  match strFields line with
  | p :: _ :: _ => fun q => if q = p then m q + 1 else m q
  | _ => m

/-- The pool-distribution map built by `analyzePoolScan` from the scanned
lines; a missing key reads as 0, matching Go map semantics. -/
def analyzeLines (lines : List String) : String → Nat :=
  lines.foldl analyzeStep (fun _ => 0)

/-- `analyzePoolScan` (src/main.go lines 187-219): `none` when the scan file
is missing or cannot be opened; otherwise the distribution built from the
lines yielded before any read fault, paired with `scanner.Err()` (`true` =
mid-stream read fault). -/
def analyzePoolScan (opened : Bool) (lines : List String) (readErr : Bool) :
    Option ((String → Nat) × Bool) :=
  if opened then some (analyzeLines lines, readErr) else none

/-- The mutable state of `main`'s migration loop, plus two observation
traces: the paths on which `migrateFile` was invoked and the paths on which
`getXattr` was invoked. -/
structure LoopState where
  lineCount : Nat
  total : Nat
  migrated : Nat
  errors : Nat
  bytesTotal : Nat
  fs : FS
  migCalls : List Path
  xattrReads : List Path

def initState (fs : FS) : LoopState := ⟨0, 0, 0, 0, 0, fs, [], []⟩

/-- One iteration of `main`'s migration loop (src/main.go lines 97-168) on a
single scan line: count the line; drop it if it has fewer than two fields;
skip records of other pools; `os.Stat` failure and attribute
failure/mismatch count as errors; directories are skipped silently; an
eligible file is migrated (or, in dry-run mode, only counted). -/
def processLine (env : Env) (dryRun : Bool) (root : Path) (st : LoopState) (line : String) :
    LoopState :=
  let st1 := { st with lineCount := st.lineCount + 1 }
  match strFields line with
  | poolF :: rel :: _ =>
    let st2 := { st1 with total := st1.total + 1 }
    if poolF ≠ SRC_POOL then st2
    else
      let absPath := joinPath root rel
      match st2.fs absPath with
      | none => { st2 with errors := st2.errors + 1 }
      | some ent =>
        if ent.isDir then st2
        else
          let st3 := { st2 with xattrReads := st2.xattrReads ++ [absPath] }
          match getXattr st3.fs absPath with
          | none => { st3 with errors := st3.errors + 1 }
          | some cur =>
            if cur ≠ SRC_POOL then { st3 with errors := st3.errors + 1 }
            else if dryRun then
              { st3 with migrated := st3.migrated + 1,
                         bytesTotal := st3.bytesTotal + (infoOf ent).size }
            else
              let m := migrateFile env noFaults st3.fs absPath (infoOf ent)
              match m.res with
              | .error _ =>
                { st3 with errors := st3.errors + 1, fs := m.fs,
                           migCalls := st3.migCalls ++ [absPath] }
              | .ok _ =>
                { st3 with migrated := st3.migrated + 1,
                           bytesTotal := st3.bytesTotal + (infoOf ent).size, fs := m.fs,
                           migCalls := st3.migCalls ++ [absPath] }
  | _ => st1

/-- Observable outcome of a whole run: an early `os.Exit`, or completion with
the final loop state and whether a migration-pass stream error was
reported. -/
inductive RunOutcome where
  | exit (code : Nat)
  | done (st : LoopState) (streamErr : Bool)

def RunOutcome.isDone : RunOutcome → Bool
  | .done _ _ => true
  | _ => false

def setStreamErr (e : Bool) : RunOutcome → RunOutcome
  | .done st _ => .done st e
  | x => x

/-- `main` (src/main.go): analysis pass over the scan file, fatal exit when
the scan file is unopenable or `analyzePoolScan` returns an error,
zero-eligible short-circuit, confirmation prompt (skipped in dry-run mode),
second pass folding `processLine`, and the summary.  `lines1`/`lines2` are
the lines each pass yields before any read fault; `err1`/`err2` the fault
flags; `open1`/`open2` whether each open of the scan file succeeds. -/
def runMain (env : Env) (dryRun confirm : Bool)
    (open1 : Bool) (lines1 : List String) (err1 : Bool)
    (open2 : Bool) (lines2 : List String) (err2 : Bool)
    (root : Path) (fs : FS) : RunOutcome :=
  match analyzePoolScan open1 lines1 err1 with
  | none => .exit 1
  | some (stats, e) =>
    if e then .exit 1
    else if stats SRC_POOL = 0 then .exit 0
    else if !dryRun && !confirm then .exit 0
    else if !open2 then .exit 1
    else .done (lines2.foldl (processLine env dryRun root) (initState fs)) err2

/-! ### Concrete fixtures used by witnesses and counterexamples -/

def env0 : Env := ⟨100, 0, 0⟩

/-- A regular source-pool file at `/ceph/a`, with no temp sibling. -/
def fileA : FileEnt := ⟨[1, 2, 3], some SRC_POOL, 420, 1000, 1000, 5, 6, false⟩

def fsA : FS := fun q => if q = "/ceph/a" then some fileA else none

def infoA : FileInfo := infoOf fileA

/-- Faults modelling the spec's own probe: fail right after the
attribute-set (at the source open) and let the best-effort removal fail, so
the temp file can be observed. -/
def faultAfterSet : Faults := { failOpenSrc := true, failRemove := true }

/-- A source file at `/ceph/b` together with a stale temp file left at
`/ceph/b.mig`, longer than the source. -/
def fileB : FileEnt := ⟨[5], some SRC_POOL, 420, 1000, 1000, 5, 6, false⟩

def staleB : FileEnt := ⟨[7, 7, 7], none, 384, 0, 0, 1, 1, false⟩

def fsB : FS :=
  fun q => if q = "/ceph/b" then some fileB else if q = "/ceph/b.mig" then some staleB else none

/-- A source file at `/ceph/c` together with a stale temp file at
`/ceph/c.mig`. -/
def fileC : FileEnt := ⟨[1], some SRC_POOL, 420, 1000, 1000, 5, 6, false⟩

def staleC : FileEnt := ⟨[9, 9, 9], none, 384, 0, 0, 1, 1, false⟩

def fsC : FS :=
  fun q => if q = "/ceph/c" then some fileC else if q = "/ceph/c.mig" then some staleC else none

/-- A source file at `/ceph/d` together with a stale, non-empty temp file at
`/ceph/d.mig`. -/
def fileD : FileEnt := ⟨[4], some SRC_POOL, 420, 1000, 1000, 5, 6, false⟩

def staleD : FileEnt := ⟨[9, 9, 9], none, 384, 0, 0, 1, 1, false⟩

def fsD : FS :=
  fun q => if q = "/ceph/d" then some fileD else if q = "/ceph/d.mig" then some staleD else none

/-- A file at `/ceph/e` that already carries the destination-pool attribute
(migrated by an earlier run) while the scan file still lists it under the
source pool. -/
def fileE : FileEnt := ⟨[8], some DST_POOL, 420, 1000, 1000, 5, 6, false⟩

def fsE : FS := fun q => if q = "/ceph/e" then some fileE else none

/-- A directory at `/ceph/sub` listed in the scan file under the source
pool. -/
def dirSub : FileEnt := ⟨[], some SRC_POOL, 493, 0, 0, 1, 1, true⟩

def fsDir : FS := fun q => if q = "/ceph/sub" then some dirSub else none

/-! ### Helper lemmas -/

theorem tmp_ne (p : Path) : p ≠ p ++ ".mig" := by
  intro h
  have h2 := congrArg String.length h
  rw [String.length_append] at h2
  have h3 : ".mig".length = 4 := by decide
  rw [h3] at h2
  omega

theorem setF_ne {q p : Path} (h : q ≠ p) (fs : FS) (e : FileEnt) : setF fs p e q = fs q := by
  simp [setF, h]

theorem setF_eq (fs : FS) (p : Path) (e : FileEnt) : setF fs p e p = some e := by
  simp [setF]

theorem delF_ne {q p : Path} (h : q ≠ p) (fs : FS) : delF fs p q = fs q := by
  simp [delF, h]

theorem updF_ne {q p : Path} (h : q ≠ p) (fs : FS) (g : FileEnt → FileEnt) :
    updF fs p g q = fs q := by
  simp [updF, h]

theorem updF_eq (fs : FS) (p : Path) (g : FileEnt → FileEnt) :
    updF fs p g p = (fs p).map g := by
  simp [updF]

theorem removeTmp_ne {q t : Path} (h : q ≠ t) (f : Faults) (fs : FS) :
    removeTmp f fs t q = fs q := by
  unfold removeTmp
  split
  · rfl
  · exact delF_ne h fs

theorem createFS_ne {q t : Path} (h : q ≠ t) (env : Env) (info : FileInfo) (fs : FS) :
    createFS env info fs t q = fs q := by
  unfold createFS
  cases fs t
  · exact setF_ne h fs _
  · rfl

theorem setxFS_ne {q t : Path} (h : q ≠ t) (fs : FS) : setxFS fs t q = fs q :=
  updF_ne h fs _

theorem writeFS_ne {q t : Path} (h : q ≠ t) (fs : FS) (p : Path) (k : Nat) :
    writeFS fs p t k q = fs q :=
  updF_ne h fs _

theorem chmodFS_ne {q t : Path} (h : q ≠ t) (fs : FS) (m : Nat) :
    chmodFS fs t m q = fs q :=
  updF_ne h fs _

theorem chownFS_ne {q t : Path} (h : q ≠ t) (fs : FS) (u g : Nat) :
    chownFS fs t u g q = fs q :=
  updF_ne h fs _

theorem chtimesFS_ne {q t : Path} (h : q ≠ t) (fs : FS) (a m : Nat) :
    chtimesFS fs t a m q = fs q :=
  updF_ne h fs _

/-! ### Claim theorems -/

/-- C1: if any of steps 1-6 of the Migration Executor (create temp, set
attribute, open/copy, chmod, chown, set timestamps) returns an error, the
entry at the original path — content, placement attribute and all metadata —
is exactly its pre-invocation value: no step before the final rename writes
to the original path. -/
theorem migrateFile_early_failure_frame
    (env : Env) (f : Faults) (fs : FS) (p : Path) (info : FileInfo) (k : Err)
    (hres : (migrateFile env f fs p info).res = Except.error k)
    (hk : k ≠ Err.renameErr) :
    (migrateFile env f fs p info).fs p = fs p := by
  have hne : p ≠ p ++ ".mig" := tmp_ne p
  simp only [migrateFile] at hres ⊢
  rcases hff : firstFail f fs p with _ | e
  · simp [hff] at hres
  · have hek : e = k := by
      rw [hff] at hres
      simpa using hres
    subst hek
    cases e <;>
      first
        | exact absurd rfl hk
        | simp_all [migFS, hff, fs2of, fs6of, removeTmp_ne hne, createFS_ne hne, setxFS_ne hne,
            writeFS_ne hne, chmodFS_ne hne, chownFS_ne hne, chtimesFS_ne hne]

/-- C3 (amended): on failure at any of steps 2-7 a removal of the temporary
sibling path is attempted before the error is returned; a step-1 creation
failure returns the create error without attempting any removal. -/
theorem migrateFile_late_failure_attempts_removal
    (env : Env) (f : Faults) (fs : FS) (p : Path) (info : FileInfo) (k : Err)
    (hres : (migrateFile env f fs p info).res = Except.error k)
    (hk : k ≠ Err.createErr) :
    Ev.doRemove (p ++ ".mig") ∈ (migrateFile env f fs p info).tr := by
  simp only [migrateFile] at hres ⊢
  rcases hff : firstFail f fs p with _ | e
  · simp [hff] at hres
  · have hek : e = k := by
      rw [hff] at hres
      simpa using hres
    subst hek
    cases e <;>
      first
        | exact absurd rfl hk
        | simp [migTr, hff]

/-- C2 (amended): in every execution, the attribute-set on the temporary file
precedes any data write to it (no `writeData` event occurs before the first
`setx` event on the temp path); and whenever no file pre-existed at the
temporary path, the temp file observed right after the attribute-set (probe:
fail the very next step, with removal failing too) is empty and carries the
destination-pool attribute. -/
theorem migrateFile_attr_before_data
    (env : Env) (f : Faults) (fs : FS) (p : Path) (info : FileInfo) :
    setFirst (p ++ ".mig") (migrateFile env f fs p info).tr = true := by
  simp only [migrateFile]
  rcases hff : firstFail f fs p with _ | e
  · simp [migTr, hff, setFirst, Ev.isSetOn, Ev.isWriteOn]
  · cases e <;> simp [migTr, hff, setFirst, Ev.isSetOn, Ev.isWriteOn]

theorem migrateFile_probe_after_set_empty
    (env : Env) (fs : FS) (p : Path) (info : FileInfo)
    (htmp : fs (p ++ ".mig") = none) :
    (migrateFile env faultAfterSet fs p info).fs (p ++ ".mig") =
      some ⟨[], some DST_POOL, info.mode, env.uid, env.gid, env.now, env.now, false⟩ := by
  have hff : firstFail faultAfterSet fs p = some .openSrcErr := by
    simp [firstFail, faultAfterSet, isDirAt, htmp]
  simp only [migrateFile, migFS, hff]
  simp [removeTmp, faultAfterSet, fs2of, setxFS, updF, createFS, htmp, setF, freshEnt]

/-- C5 (amended): provided no file pre-exists at the temporary sibling path,
a successful `migrateFile` leaves at the original path exactly the
pre-migration content, the snapshot's permission bits and owner/group, the
snapshot's modification time (access time drifts to "now"), and the
destination-pool attribute. -/
theorem migrateFile_success_fidelity
    (env : Env) (f : Faults) (fs : FS) (p : Path) (info : FileInfo) (src : FileEnt)
    (hsrc : fs p = some src)
    (htmp : fs (p ++ ".mig") = none)
    (hok : (migrateFile env f fs p info).res = Except.ok ()) :
    (migrateFile env f fs p info).fs p =
      some ⟨src.content, some DST_POOL, info.mode, info.uid, info.gid, env.now, info.mtime,
        false⟩ := by
  have hne : p ≠ p ++ ".mig" := tmp_ne p
  simp only [migrateFile] at hok ⊢
  rcases hff : firstFail f fs p with _ | e
  · simp [migFS, hff, renameFS, fs6of, chtimesFS, chownFS, chmodFS, writeFS, fs2of, setxFS,
      createFS, updF, setF, freshEnt, htmp, hsrc, contentAt, overwrite, hne]
  · rw [hff] at hok
    simp at hok

/-- C6: a record whose scan pool is the source pool but whose live placement
attribute already equals the destination pool is skipped: the filesystem is
unchanged, the Migration Executor is not invoked, and neither the migrated
counter nor the byte counter moves (the mismatch is counted as an error). -/
theorem processLine_dst_attr_skips
    (env : Env) (dryRun : Bool) (root : Path) (st : LoopState) (line poolF rel : String)
    (rest : List String) (ent : FileEnt)
    (hf : strFields line = poolF :: rel :: rest)
    (hp : poolF = SRC_POOL)
    (he : st.fs (joinPath root rel) = some ent)
    (hd : ent.isDir = false)
    (hx : ent.xattr = some DST_POOL) :
    (processLine env dryRun root st line).fs = st.fs ∧
    (processLine env dryRun root st line).migCalls = st.migCalls ∧
    (processLine env dryRun root st line).migrated = st.migrated ∧
    (processLine env dryRun root st line).bytesTotal = st.bytesTotal := by
  have hds : DST_POOL ≠ SRC_POOL := by decide
  simp [processLine, hf, hp, he, hd, hx, getXattr, hds]

/-- C9: in dry-run mode an eligible file is not touched — the filesystem is
unchanged (in particular no temp file appears) and the Executor is not
invoked — while the migrated counter and the byte counter are incremented by
exactly what a successful real migration would add (1 and the snapshot
size). -/
theorem processLine_dry_run_counts
    (env : Env) (root : Path) (st : LoopState) (line poolF rel : String)
    (rest : List String) (ent : FileEnt)
    (hf : strFields line = poolF :: rel :: rest)
    (hp : poolF = SRC_POOL)
    (he : st.fs (joinPath root rel) = some ent)
    (hd : ent.isDir = false)
    (hx : ent.xattr = some SRC_POOL) :
    (processLine env true root st line).fs = st.fs ∧
    (processLine env true root st line).migCalls = st.migCalls ∧
    (processLine env true root st line).errors = st.errors ∧
    (processLine env true root st line).migrated = st.migrated + 1 ∧
    (processLine env true root st line).bytesTotal = st.bytesTotal + ent.content.length := by
  simp [processLine, hf, hp, he, hd, hx, getXattr, infoOf]

/-- C10: a source-pool record resolving to a directory is skipped silently:
only the line and record counters move; errors, migrated, bytes, the
filesystem, the executor-invocation trace and the attribute-read trace are
all unchanged. -/
theorem processLine_directory_skip
    (env : Env) (dryRun : Bool) (root : Path) (st : LoopState) (line poolF rel : String)
    (rest : List String) (ent : FileEnt)
    (hf : strFields line = poolF :: rel :: rest)
    (hp : poolF = SRC_POOL)
    (he : st.fs (joinPath root rel) = some ent)
    (hd : ent.isDir = true) :
    processLine env dryRun root st line =
      { st with lineCount := st.lineCount + 1, total := st.total + 1 } := by
  simp [processLine, hf, hp, he, hd]

theorem foldl_analyzeStep (lines : List String) (q : String) :
    ∀ m : String → Nat,
      lines.foldl analyzeStep m q =
        m q + lines.countP (fun l =>
          match strFields l with
          | a :: _ :: _ => a == q
          | _ => false) := by
  induction lines with
  | nil => intro m; simp
  | cons l ls ih =>
    intro m
    rw [List.foldl_cons, List.countP_cons, ih]
    rcases hsf : strFields l with _ | ⟨a, tl⟩
    · simp [analyzeStep, hsf]
    · rcases tl with _ | ⟨b, rest⟩
      · simp [analyzeStep, hsf]
      · by_cases hqa : q = a
        · subst hqa
          simp [analyzeStep, hsf]
          omega
        · simp [analyzeStep, hsf, hqa, Ne.symm hqa]

/-- C8: the Distribution Analyzer maps each pool name to the number of
well-formed records (lines with at least two whitespace-separated fields)
whose first field is that pool; on the example scan {(A,p1),(A,p2),(B,p3)}
it returns A ↦ 2 and B ↦ 1. -/
theorem analyzeLines_counts :
    (∀ (lines : List String) (q : String),
        analyzeLines lines q =
          lines.countP (fun l =>
            match strFields l with
            | a :: _ :: _ => a == q
            | _ => false)) ∧
    analyzeLines ["A p1", "A p2", "B p3"] "A" = 2 ∧
    analyzeLines ["A p1", "A p2", "B p3"] "B" = 1 := by
  refine ⟨fun lines q => ?_, by decide, by decide⟩
  rw [analyzeLines, foldl_analyzeStep]
  simp

/-- C7 (amended): a mid-stream read fault on the scan file during the
migration pass changes nothing but the reported stream-error flag — every
record yielded before the fault is still processed and counted, migrations
already performed are kept, and the summary is produced; but a mid-stream
read fault during the analysis pass is escalated by `main` to the same fatal
exit as an unopenable scan file. -/
theorem runMain_read_fault_handling :
    (∀ (env : Env) (d c o1 : Bool) (l1 : List String) (o2 : Bool) (l2 : List String)
        (e2 : Bool) (root : Path) (fs : FS),
        runMain env d c o1 l1 false o2 l2 e2 root fs =
          setStreamErr e2 (runMain env d c o1 l1 false o2 l2 false root fs)) ∧
    (∀ (env : Env) (d c : Bool) (l1 : List String) (o2 : Bool) (l2 : List String)
        (e2 : Bool) (root : Path) (fs : FS),
        runMain env d c true l1 true o2 l2 e2 root fs = RunOutcome.exit 1) ∧
    (∀ (env : Env) (d c : Bool) (l1 : List String) (e1 o2 : Bool) (l2 : List String)
        (e2 : Bool) (root : Path) (fs : FS),
        runMain env d c false l1 e1 o2 l2 e2 root fs = RunOutcome.exit 1) := by
  refine ⟨?_, ?_, ?_⟩
  · intro env d c o1 l1 o2 l2 e2 root fs
    cases o1 <;>
      simp only [runMain, analyzePoolScan, if_true, if_false, Bool.false_eq_true] <;>
      first
        | rfl
        | (split_ifs <;> rfl)
  · intro env d c l1 o2 l2 e2 root fs
    simp [runMain, analyzePoolScan]
  · intro env d c l1 e1 o2 l2 e2 root fs
    simp [runMain, analyzePoolScan]

/-- C7 counterexample: with one well-formed source-pool record and a
mid-stream read fault in the analysis pass, the run aborts with exit code 1 —
exactly the outcome of an unopenable scan file — whereas the identical run
without the fault completes; so a mid-iteration read fault does abort the
run as if the scan file were unopenable, contradicting the claim. -/
theorem runMain_analysis_read_fault_aborts :
    runMain env0 false true true ["cephfs.ibu.data_ec42 f"] true true [] false "/ceph"
      (fun _ => none) = RunOutcome.exit 1 ∧
    runMain env0 false true false ["cephfs.ibu.data_ec42 f"] false true [] false "/ceph"
      (fun _ => none) = RunOutcome.exit 1 ∧
    (runMain env0 false true true ["cephfs.ibu.data_ec42 f"] false true [] false "/ceph"
      (fun _ => none)).isDone = true :=
  ⟨rfl, rfl, rfl⟩

/-- C3 counterexample: when the step-1 creation itself fails, the error is
returned with no removal attempt — the trace of attempted filesystem
operations is exactly the failed create, with no `doRemove` — so removal is
not attempted on every non-rename exit path. -/
theorem migrateFile_create_failure_no_removal :
    (migrateFile env0 { failCreate := true } fsA "/ceph/a" infoA).res =
      Except.error Err.createErr ∧
    (migrateFile env0 { failCreate := true } fsA "/ceph/a" infoA).tr =
      [Ev.create "/ceph/a.mig"] :=
  ⟨by decide, by decide⟩

/-- C2 counterexample: with a stale non-empty file at the temporary path, the
attribute-set is performed on that reused, non-empty temp file: after a probe
failure right after step 2 (removal also failing), the temp file carries the
destination attribute yet holds its stale three bytes — it was not empty when
the attribute was set (no data write occurred: the trace has no `writeData`
event). -/
theorem migrateFile_attr_set_on_nonempty_tmp :
    (migrateFile env0 faultAfterSet fsD "/ceph/d" (infoOf fileD)).tr =
      [Ev.create "/ceph/d.mig", Ev.setx "/ceph/d.mig" DST_POOL, Ev.openR "/ceph/d",
       Ev.doRemove "/ceph/d.mig"] ∧
    (migrateFile env0 faultAfterSet fsD "/ceph/d" (infoOf fileD)).fs "/ceph/d.mig" =
      some ⟨[9, 9, 9], some DST_POOL, 384, 0, 0, 1, 1, false⟩ ∧
    ([9, 9, 9] : List Nat) ≠ [] :=
  ⟨by decide, by decide, by decide⟩

/-- C4: evaluation at the failing input.  With a pre-existing file at the
temporary path `/ceph/c.mig`, step 1 (`os.OpenFile` with `O_CREATE` but no
`O_EXCL`) does not fail: the whole migration reports success, and because the
stale temp file is reused untruncated the original path ends up with the
corrupted content [1, 9, 9] instead of the source content [1]. -/
theorem migrateFile_collision_succeeds :
    (migrateFile env0 noFaults fsC "/ceph/c" (infoOf fileC)).res = Except.ok () ∧
    (migrateFile env0 noFaults fsC "/ceph/c" (infoOf fileC)).fs "/ceph/c" =
      some ⟨[1, 9, 9], some DST_POOL, 420, 1000, 1000, 100, 6, false⟩ :=
  ⟨by decide, by decide⟩

/-- C5 counterexample: a migration that returns success but, because a stale
temp file pre-existed at the sibling path, leaves content [5, 7, 7] at the
original path instead of the pre-migration content [5]. -/
theorem migrateFile_success_not_bytewise_identical :
    (migrateFile env0 noFaults fsB "/ceph/b" (infoOf fileB)).res = Except.ok () ∧
    (migrateFile env0 noFaults fsB "/ceph/b" (infoOf fileB)).fs "/ceph/b" =
      some ⟨[5, 7, 7], some DST_POOL, 420, 1000, 1000, 100, 6, false⟩ ∧
    ([5, 7, 7] : List Nat) ≠ fileB.content :=
  ⟨by decide, by decide, by decide⟩

/-- C2 (amended): in every execution of the Executor the attribute-set on the
temporary file strictly precedes any data write to it; and whenever no file
pre-existed at the temporary path, the temporary file is still empty (and
already carries the destination attribute) at the observation point right
after the attribute-set.  (With a pre-existing temporary file the reused file
need not be empty at that point; see the counterexample.) -/
theorem migrateFile_attr_set_ordering :
    (∀ (env : Env) (f : Faults) (fs : FS) (p : Path) (info : FileInfo),
        setFirst (p ++ ".mig") (migrateFile env f fs p info).tr = true) ∧
    (∀ (env : Env) (fs : FS) (p : Path) (info : FileInfo),
        fs (p ++ ".mig") = none →
          (migrateFile env faultAfterSet fs p info).fs (p ++ ".mig") =
            some ⟨[], some DST_POOL, info.mode, env.uid, env.gid, env.now, env.now, false⟩) :=
  ⟨migrateFile_attr_before_data, migrateFile_probe_after_set_empty⟩

/-- Witness for C1 at a concrete input: a copy fault on `/ceph/a`. -/
theorem migrateFile_early_failure_frame_witness :
    (migrateFile env0 { failCopy := true } fsA "/ceph/a" infoA).res =
      Except.error Err.copyErr ∧
    Err.copyErr ≠ Err.renameErr ∧
    (migrateFile env0 { failCopy := true } fsA "/ceph/a" infoA).fs "/ceph/a" =
      fsA "/ceph/a" :=
  ⟨by decide, by decide,
    migrateFile_early_failure_frame env0 { failCopy := true } fsA "/ceph/a" infoA Err.copyErr
      (by decide) (by decide)⟩

/-- Witness for C2 at a concrete input: fresh temp path for `/ceph/a`. -/
theorem migrateFile_attr_set_ordering_witness :
    fsA "/ceph/a.mig" = none ∧
    (migrateFile env0 faultAfterSet fsA "/ceph/a" infoA).fs "/ceph/a.mig" =
      some ⟨[], some DST_POOL, 420, 0, 0, 100, 100, false⟩ :=
  ⟨by decide, migrateFile_attr_set_ordering.2 env0 fsA "/ceph/a" infoA (by decide)⟩

/-- Witness for C3 at a concrete input: a chmod fault on `/ceph/a`. -/
theorem migrateFile_late_failure_attempts_removal_witness :
    (migrateFile env0 { failChmod := true } fsA "/ceph/a" infoA).res =
      Except.error Err.chmodErr ∧
    Err.chmodErr ≠ Err.createErr ∧
    Ev.doRemove "/ceph/a.mig" ∈ (migrateFile env0 { failChmod := true } fsA "/ceph/a" infoA).tr :=
  ⟨by decide, by decide,
    migrateFile_late_failure_attempts_removal env0 { failChmod := true } fsA "/ceph/a" infoA
      Err.chmodErr (by decide) (by decide)⟩

/-- Witness for C5 at a concrete input: a fault-free migration of `/ceph/a`
with a fresh temp path. -/
theorem migrateFile_success_fidelity_witness :
    fsA "/ceph/a" = some fileA ∧
    fsA "/ceph/a.mig" = none ∧
    (migrateFile env0 noFaults fsA "/ceph/a" infoA).res = Except.ok () ∧
    (migrateFile env0 noFaults fsA "/ceph/a" infoA).fs "/ceph/a" =
      some ⟨fileA.content, some DST_POOL, 420, 1000, 1000, 100, 6, false⟩ :=
  ⟨by decide, by decide, by decide,
    migrateFile_success_fidelity env0 noFaults fsA "/ceph/a" infoA fileA (by decide) (by decide)
      (by decide)⟩

/-- Witness for C6 at a concrete input: `/ceph/e` already carries the
destination attribute while the scan line lists it under the source pool. -/
theorem processLine_dst_attr_skips_witness :
    strFields "cephfs.ibu.data_ec42 e" = "cephfs.ibu.data_ec42" :: "e" :: [] ∧
    "cephfs.ibu.data_ec42" = SRC_POOL ∧
    (initState fsE).fs (joinPath "/ceph" "e") = some fileE ∧
    fileE.isDir = false ∧
    fileE.xattr = some DST_POOL ∧
    ((processLine env0 false "/ceph" (initState fsE) "cephfs.ibu.data_ec42 e").fs =
        (initState fsE).fs ∧
      (processLine env0 false "/ceph" (initState fsE) "cephfs.ibu.data_ec42 e").migCalls =
        (initState fsE).migCalls ∧
      (processLine env0 false "/ceph" (initState fsE) "cephfs.ibu.data_ec42 e").migrated =
        (initState fsE).migrated ∧
      (processLine env0 false "/ceph" (initState fsE) "cephfs.ibu.data_ec42 e").bytesTotal =
        (initState fsE).bytesTotal) :=
  ⟨by decide, by decide, by decide, by decide, by decide,
    processLine_dst_attr_skips env0 false "/ceph" (initState fsE) "cephfs.ibu.data_ec42 e"
      "cephfs.ibu.data_ec42" "e" [] fileE (by decide) (by decide) (by decide) (by decide)
      (by decide)⟩

/-- Witness for C9 at a concrete input: dry run over the eligible file
`/ceph/a`. -/
theorem processLine_dry_run_counts_witness :
    strFields "cephfs.ibu.data_ec42 a" = "cephfs.ibu.data_ec42" :: "a" :: [] ∧
    "cephfs.ibu.data_ec42" = SRC_POOL ∧
    (initState fsA).fs (joinPath "/ceph" "a") = some fileA ∧
    fileA.isDir = false ∧
    fileA.xattr = some SRC_POOL ∧
    ((processLine env0 true "/ceph" (initState fsA) "cephfs.ibu.data_ec42 a").fs =
        (initState fsA).fs ∧
      (processLine env0 true "/ceph" (initState fsA) "cephfs.ibu.data_ec42 a").migCalls =
        (initState fsA).migCalls ∧
      (processLine env0 true "/ceph" (initState fsA) "cephfs.ibu.data_ec42 a").errors =
        (initState fsA).errors ∧
      (processLine env0 true "/ceph" (initState fsA) "cephfs.ibu.data_ec42 a").migrated =
        (initState fsA).migrated + 1 ∧
      (processLine env0 true "/ceph" (initState fsA) "cephfs.ibu.data_ec42 a").bytesTotal =
        (initState fsA).bytesTotal + fileA.content.length) :=
  ⟨by decide, by decide, by decide, by decide, by decide,
    processLine_dry_run_counts env0 "/ceph" (initState fsA) "cephfs.ibu.data_ec42 a"
      "cephfs.ibu.data_ec42" "a" [] fileA (by decide) (by decide) (by decide) (by decide)
      (by decide)⟩

/-- Witness for C10 at a concrete input: a source-pool record resolving to
the directory `/ceph/sub`. -/
theorem processLine_directory_skip_witness :
    strFields "cephfs.ibu.data_ec42 sub" = "cephfs.ibu.data_ec42" :: "sub" :: [] ∧
    "cephfs.ibu.data_ec42" = SRC_POOL ∧
    (initState fsDir).fs (joinPath "/ceph" "sub") = some dirSub ∧
    dirSub.isDir = true ∧
    processLine env0 false "/ceph" (initState fsDir) "cephfs.ibu.data_ec42 sub" =
      { initState fsDir with lineCount := (initState fsDir).lineCount + 1,
                             total := (initState fsDir).total + 1 } :=
  ⟨by decide, by decide, by decide, by decide,
    processLine_directory_skip env0 false "/ceph" (initState fsDir) "cephfs.ibu.data_ec42 sub"
      "cephfs.ibu.data_ec42" "sub" [] dirSub (by decide) (by decide) (by decide) (by decide)⟩

end Migxattrs
